import Mathlib

/-!
Shallow embedding of the trivia API backend
(`projects/02_trivia_api/starter/backend/flaskr/__init__.py`).

Each Flask request handler is modelled as a Lean function from an explicit
store (the relational tables) and the request data to a result.  Every
handler in the source wraps its body in `try/except Exception/finally`;
the `except` clause catches *every* `Exception` — including the
`werkzeug.exceptions.HTTPException` raised by `abort(404)`/`abort(400)`,
since `HTTPException` subclasses `Exception` — rolls back the session and
calls `abort(422)`.  That catch-all is modelled by `tryExcept`.
-/

deriving instance DecidableEq for Except

namespace Trivia

/-- Modelled from the spec: the `Question` row of `models.py` (the model
module is not part of the sources; spec section 3 gives its fields:
id, question text, answer text, difficulty as integer, category as
foreign key). -/
structure Question where
  id : Nat
  question : String
  answer : String
  difficulty : Int
  category : Nat
deriving Repr, DecidableEq

/-- Modelled from the spec: the `Category` row of `models.py`
(spec section 3: id and display label `type`). -/
structure Category where
  id : Nat
  type : String
deriving Repr, DecidableEq

/-- The relational store: the `questions` and `categories` tables. -/
structure Store where
  questions : List Question
  categories : List Category
deriving Repr, DecidableEq

/-- Modelled from the spec: the serialized shape of one question,
`{id, question, answer, difficulty, category}` (spec section 6);
produced by `Question.format()` in `models.py`. -/
structure FormattedQuestion where
  id : Nat
  question : String
  answer : String
  difficulty : Int
  category : Nat
deriving Repr, DecidableEq

/-- Modelled from the spec: `Question.format()` serializes the row's own
five fields unchanged. -/
def Question.format (q : Question) : FormattedQuestion :=
  ⟨q.id, q.question, q.answer, q.difficulty, q.category⟩

/-- The Python exceptions the handlers can raise.  `httpExc c` is the
`werkzeug` exception raised by `abort(c)`; `typeError` models
`int(None)`; `indexError` models `random.choice([])`. -/
inductive PyExc where
  | httpExc : Nat → PyExc
  | typeError : PyExc
  | indexError : PyExc
deriving Repr, DecidableEq

/-- The `except Exception` clause shared by every handler: any exception
raised in the `try` block — the `abort(404)`/`abort(400)` HTTP exceptions
included, because `HTTPException` subclasses `Exception` — is swallowed
and replaced by `abort(422)`. -/
def tryExcept {α : Type} (body : Except PyExc α) : Except PyExc α :=
  match body with
  | .ok a => .ok a
  | .error _ => .error (.httpExc 422)

/-- The HTTP status the client observes: 200 for a returned body, the
code of an escaping HTTP exception, 500 for any other escaping
exception (Flask's default). -/
def httpStatus {α : Type} : Except PyExc α → Nat
  | .ok _ => 200
  | .error (.httpExc c) => c
  | .error _ => 500

/-- `QUESTIONS_PER_PAGE = 10` (line 10 of the source). -/
def QUESTIONS_PER_PAGE : Nat := 10

/-- Python truthiness of an optional JSON string: absent (`None`) and
`""` are falsy. -/
def truthyOptStr : Option String → Bool
  | none => false
  | some s => !s.isEmpty

/-- Python truthiness of an optional JSON integer: absent (`None`) and
`0` are falsy. -/
def truthyOptNat : Option Nat → Bool
  | none => false
  | some n => n != 0

/-- `int(x)` applied to `data.get(...)`: `int(None)` raises `TypeError`;
an integer passes through. -/
def pyInt : Option Int → Except PyExc Int
  | none => .error .typeError
  | some n => .ok n

/-- Python f-string interpolation of a possibly-`None` value:
`f'{None}'` is the literal string `"None"`. -/
def pyFStr : Option String → String
  | none => "None"
  | some s => s

/-- The `{id: type}` dictionary built by the category-formatting loops
(lines 40–42 and 71–73), as an association list. -/
def categoriesData (cats : List Category) : List (Nat × String) :=
  cats.map (fun c => (c.id, c.type))

/-- Response of `GET /categories`. -/
structure CategoriesResp where
  success : Bool
  categories : List (Nat × String)
deriving Repr, DecidableEq

/-- `GET /categories` (lines 30–55): all categories as `{id: type}`;
`abort(404)` when the table is empty. -/
def get_categories (st : Store) : Except PyExc CategoriesResp :=
  tryExcept
    (if st.categories.isEmpty then .error (.httpExc 404)
     else .ok ⟨true, categoriesData st.categories⟩)

/-- Flask-SQLAlchemy `query.paginate(page, per_page)` with the default
`error_out=True`: 404 when `page < 1`; items are
`offset((page-1)*per_page).limit(per_page)`; 404 when the slice is empty
and the page is not 1; `total` is the full row count. -/
def paginate (qs : List Question) (page : Int) (perPage : Nat) :
    Except PyExc (List Question × Nat) :=
  if page < 1 then .error (.httpExc 404)
  else
    let items := (qs.drop ((page - 1).toNat * perPage)).take perPage
    if items.isEmpty && page != 1 then .error (.httpExc 404)
    else .ok (items, qs.length)

/-- Response of `GET /questions`. -/
structure QuestionsResp where
  success : Bool
  total_questions : Nat
  questions : List FormattedQuestion
  categories : List (Nat × String)
  current_category : Option Nat
deriving Repr, DecidableEq

/-- `GET /questions?page=N` (lines 58–92).  The argument is the already
parsed page number (`int(request.args.get('page', 1))`; the caller
passes 1 when the query string omits it). -/
def get_questions (st : Store) (page : Int) : Except PyExc QuestionsResp :=
  tryExcept
    (match paginate st.questions page QUESTIONS_PER_PAGE with
     | .error e => .error e
     | .ok pg =>
       let questions_data := pg.1.map Question.format
       if questions_data.isEmpty || st.categories.isEmpty then .error (.httpExc 404)
       else .ok ⟨true, pg.2, questions_data, categoriesData st.categories, none⟩)

/-- Response of `DELETE /questions/{id}`. -/
structure DeleteResp where
  success : Bool
  id : Nat
deriving Repr, DecidableEq

/-- Body of `DELETE /questions/{id}` (lines 97–111): `query.get(id)`,
`abort(404)` when absent, otherwise delete the row and answer with the
deleted id.  `db.session.delete` removes the one row `get` returned;
primary keys are unique, so erasing the first id-match is that row. -/
def delete_question_body (st : Store) (id : Nat) :
    Except PyExc (Store × DeleteResp) :=
  match st.questions.find? (fun q => q.id == id) with
  | none => .error (.httpExc 404)
  | some q =>
    .ok ({ st with questions := st.questions.eraseP (fun q' => q'.id == id) },
         ⟨true, q.id⟩)

/-- `DELETE /questions/{id}` (lines 95–119): the body under the
catch-all; on any exception the session is rolled back, so the store is
returned unchanged. -/
def delete_question (st : Store) (id : Nat) : Store × Except PyExc DeleteResp :=
  match tryExcept (delete_question_body st id) with
  | .ok (st', r) => (st', .ok r)
  | .error e => (st, .error e)

/-- The JSON body of `POST /questions`; each field is absent (`None`)
or present. -/
structure AddInput where
  question : Option String
  answer : Option String
  difficulty : Option Int
  category : Option Nat
deriving Repr, DecidableEq

/-- Modelled from the spec: the id the data layer assigns on insert
(spec section 3: "id (unique, server-generated)"); a fresh id larger
than every existing one, as a serial column produces. -/
def freshId (st : Store) : Nat :=
  (st.questions.map Question.id).foldr max 0 + 1

/-- Response of `POST /questions`. -/
structure AddResp where
  success : Bool
  id : Nat
deriving Repr, DecidableEq

/-- Body of `POST /questions` (lines 124–143): `int(data.get('difficulty'))`
runs first and raises `TypeError` when the field is absent; then the
truthiness check `data and question and answer and difficulty and category`
aborts with 400 (the `data` conjunct is redundant: reaching the check
means the difficulty key was present, so the dict is non-empty and
truthy); on success the row is inserted and its new id returned.  The
`getD` defaults are unreachable: the check guarantees the fields are
present. -/
def add_question_body (st : Store) (inp : AddInput) :
    Except PyExc (Store × AddResp) :=
  match pyInt inp.difficulty with
  | .error e => .error e
  | .ok difficulty =>
    if !(truthyOptStr inp.question && truthyOptStr inp.answer &&
         (difficulty != 0) && truthyOptNat inp.category) then
      .error (.httpExc 400)
    else
      let new : Question :=
        ⟨freshId st, (inp.question).getD "", (inp.answer).getD "", difficulty,
         (inp.category).getD 0⟩
      .ok ({ st with questions := st.questions ++ [new] }, ⟨true, new.id⟩)

/-- `POST /questions` (lines 122–151): body under the catch-all; on any
exception the session is rolled back and the store unchanged. -/
def add_question (st : Store) (inp : AddInput) : Store × Except PyExc AddResp :=
  match tryExcept (add_question_body st inp) with
  | .ok (st', r) => (st', .ok r)
  | .error e => (st, .error e)

/-- ASCII lowering, as SQL `ILIKE` and Python `str.lower` perform on the
ASCII range. -/
def lowerChar (c : Char) : Char :=
  if 'A' ≤ c && c ≤ 'Z' then Char.ofNat (c.toNat + 32) else c

/-- SQL `LIKE`/`ILIKE` pattern matching over characters, case-folded on
both sides: `%` matches any (possibly empty) run, `_` matches exactly
one character, any other pattern character matches case-insensitively.
A `%` consumes some suffix split: the rest of the pattern must match one
of the tails of the string. -/
def likeMatch : List Char → List Char → Bool
  | [], s => s.isEmpty
  | c :: p, s =>
    if c = '%' then (s.tails).any (fun s' => likeMatch p s')
    else if c = '_' then
      match s with
      | [] => false
      | _ :: s' => likeMatch p s'
    else
      match s with
      | [] => false
      | d :: s' => (lowerChar c = lowerChar d) && likeMatch p s'

/-- `column.ilike(pattern)` of SQLAlchemy: case-insensitive SQL LIKE. -/
def ilike (s : String) (pat : String) : Bool :=
  likeMatch pat.data s.data

/-- Response of `POST /questions/search`. -/
structure SearchResp where
  success : Bool
  questions : List FormattedQuestion
  total_questions : Nat
  current_category : Option Nat
deriving Repr, DecidableEq

/-- `POST /questions/search` (lines 154–185): `data.get('searchTerm')`
may be `None`; the f-string `f'%{search_term}%'` then interpolates the
literal text `None`.  No emptiness check: an empty result list is still
a 200 response. -/
def search_questions (st : Store) (searchTerm : Option String) :
    Except PyExc SearchResp :=
  tryExcept
    (let pattern := "%" ++ pyFStr searchTerm ++ "%"
     let questions := st.questions.filter (fun q => ilike q.question pattern)
     let fmt := questions.map Question.format
     .ok ⟨true, fmt, fmt.length, none⟩)

/-- Response of `GET /categories/{id}/questions`. -/
structure CategoryQuestionsResp where
  success : Bool
  total_questions : Nat
  questions : List FormattedQuestion
  current_category : Option Nat
deriving Repr, DecidableEq

/-- `GET /categories/{id}/questions` (lines 188–212): `filter_by(category=id)`,
404 when nothing matches, else the formatted rows with their count and
the echoed category id. -/
def get_questions_by_category (st : Store) (id : Nat) :
    Except PyExc CategoryQuestionsResp :=
  tryExcept
    (let questions := st.questions.filter (fun q => q.category == id)
     let questions_data := questions.map Question.format
     if questions_data.isEmpty then .error (.httpExc 404)
     else .ok ⟨true, questions.length, questions_data, some id⟩)

/-- The JSON body of `POST /quizzes`. -/
structure QuizInput where
  previous_questions : List Nat
  quiz_category_id : Nat
deriving Repr, DecidableEq

/-- Response of `POST /quizzes`. -/
structure QuizResp where
  success : Bool
  question : FormattedQuestion
deriving Repr, DecidableEq

/-- The eligible pool of `play_quiz` (lines 222–227): every question
when the requested category id is 0, else the questions of that
category. -/
def eligible_pool (st : Store) (catId : Nat) : List Question :=
  if catId = 0 then st.questions
  else st.questions.filter (fun q => q.category == catId)

/-- The `while True` loop of `play_quiz` (lines 230–233), fuel-indexed.
`r` is the random oracle: draw `k` picks index `r k % pool.length`, the
in-range index `random.choice` produces on a non-empty list; on an empty
list `random.choice` raises `IndexError`.  `none` means the loop has not
produced an outcome within `fuel` iterations (the source loop is
unbounded, so `none` for every fuel is non-termination); `some` is the
loop's outcome: the chosen unseen question, or the exception. -/
def quizLoop (pool : List Question) (prev : List Nat) (r : Nat → Nat) :
    Nat → Nat → Option (Except PyExc Question)
  | _, 0 => none
  | k, fuel + 1 =>
    match pool.get? (r k % pool.length) with
    | none => some (.error .indexError)
    | some q =>
      if q.id ∈ prev then quizLoop pool prev r (k + 1) fuel
      else some (.ok q)

/-- Spec-side predicate (from the spec's words, for refinement
comparison): `t` starts the string `s`, comparing characters
case-insensitively. -/
def startsWithCI : List Char → List Char → Bool
  | [], _ => true
  | _ :: _, [] => false
  | c :: t, d :: s => (lowerChar c = lowerChar d) && startsWithCI t s

/-- Spec-side predicate (from the spec's words: "case-insensitive
substring match"): the text of `t` occurs contiguously inside `s`,
case-insensitively — it starts one of the tails of `s`. -/
def containsCI (s : String) (t : String) : Bool :=
  s.data.tails.any (fun s' => startsWithCI t.data s')

/-- Whether a search term contains a SQL LIKE wildcard character. -/
def hasWild (t : List Char) : Bool :=
  t.any (fun c => c = '%' || c = '_')

/-- `POST /quizzes` (lines 215–246): build the pool, run the draw loop;
a produced question is formatted into a 200 body, a raised exception is
caught by the catch-all and becomes 422.  `none` propagates
non-termination: no response at all is produced. -/
def play_quiz (st : Store) (inp : QuizInput) (r : Nat → Nat) (fuel : Nat) :
    Option (Except PyExc QuizResp) :=
  match quizLoop (eligible_pool st inp.quiz_category_id)
      inp.previous_questions r 0 fuel with
  | none => none
  | some (.ok q) => some (.ok ⟨true, q.format⟩)
  | some (.error e) => some (tryExcept (.error e))

/-! ## Shared lemmas -/

/-- The catch-all leaves only two observable statuses: 200 when the body
returned, 422 when anything was raised. -/
theorem tryExcept_status {α : Type} (e : Except PyExc α) :
    httpStatus (tryExcept e) = 200 ∨ httpStatus (tryExcept e) = 422 := by
  cases e <;> simp [tryExcept, httpStatus]

/-- The catch-all is transparent on successful bodies. -/
theorem tryExcept_ok {α : Type} (e : Except PyExc α) (a : α) :
    tryExcept e = .ok a ↔ e = .ok a := by
  cases e <;> simp [tryExcept]

/-- C3: in all five handlers that call `abort(404)`/`abort(400)` inside
their `try` block, the raised `HTTPException` is an `Exception`, so the
generic `except` clause catches it and re-raises `abort(422)`; the
interface therefore only ever shows status 200 or 422 on these
endpoints, never 400 or 404. -/
theorem handlers_only_200_or_422 (st : Store) (page : Int) (id₁ id₂ : Nat)
    (inp : AddInput) :
    (httpStatus (get_categories st) = 200 ∨ httpStatus (get_categories st) = 422) ∧
    (httpStatus (get_questions st page) = 200 ∨ httpStatus (get_questions st page) = 422) ∧
    (httpStatus (delete_question st id₁).2 = 200 ∨
      httpStatus (delete_question st id₁).2 = 422) ∧
    (httpStatus (add_question st inp).2 = 200 ∨
      httpStatus (add_question st inp).2 = 422) ∧
    (httpStatus (get_questions_by_category st id₂) = 200 ∨
      httpStatus (get_questions_by_category st id₂) = 422) := by
  refine ⟨tryExcept_status _, tryExcept_status _, ?_, ?_, tryExcept_status _⟩
  · rcases hb : delete_question_body st id₁ with e | ⟨st', r⟩ <;>
      simp [delete_question, hb, tryExcept, httpStatus]
  · rcases hb : add_question_body st inp with e | ⟨st', r⟩ <;>
      simp [add_question, hb, tryExcept, httpStatus]

/-- C9: with an empty eligible pool, `random.choice` raises `IndexError`
on the very first iteration; the catch-all converts it to 422.  The
handler is read-only (the model threads no store change), and it
terminates: one unit of fuel already produces the 422 outcome. -/
theorem play_quiz_empty_pool_422 (st : Store) (inp : QuizInput)
    (h : eligible_pool st inp.quiz_category_id = []) (r : Nat → Nat) (fuel : Nat) :
    play_quiz st inp r (fuel + 1) = some (.error (.httpExc 422)) := by
  unfold play_quiz
  rw [h]
  simp [quizLoop, tryExcept]

/-- Witness for C9: a store whose only question is in category 1, asked
for quiz category 5 — the pool is empty and the response is 422. -/
theorem play_quiz_empty_pool_422_witness :
    eligible_pool ⟨[⟨1, "q1", "a1", 1, 1⟩], []⟩ 5 = [] ∧
    play_quiz ⟨[⟨1, "q1", "a1", 1, 1⟩], []⟩ ⟨[], 5⟩ (fun _ => 0) 1 =
      some (.error (.httpExc 422)) :=
  ⟨by decide,
   play_quiz_empty_pool_422 ⟨[⟨1, "q1", "a1", 1, 1⟩], []⟩ ⟨[], 5⟩ (by decide)
     (fun _ => 0) 0⟩

/-- Soundness of the draw loop: whatever the oracle and fuel, a question
the loop hands back is a pool member whose id is not excluded. -/
theorem quizLoop_ok_mem (pool : List Question) (prev : List Nat) (r : Nat → Nat) :
    ∀ fuel k q, quizLoop pool prev r k fuel = some (.ok q) →
      q ∈ pool ∧ q.id ∉ prev := by
  intro fuel
  induction fuel with
  | zero => intro k q h; simp [quizLoop] at h
  | succ n ih =>
    intro k q h
    rw [quizLoop] at h
    cases hg : pool.get? (r k % pool.length) with
    | none => rw [hg] at h; simp at h
    | some q' =>
      rw [hg] at h
      dsimp only at h
      by_cases hmem : q'.id ∈ prev
      · rw [if_pos hmem] at h
        exact ih (k + 1) q h
      · rw [if_neg hmem] at h
        simp only [Option.some.injEq, Except.ok.injEq] at h
        subst h
        exact ⟨List.get?_mem hg, hmem⟩

/-- The draw loop can succeed in one step when an eligible question
exists: aim the oracle at its index. -/
theorem quizLoop_hits (pool : List Question) (prev : List Nat) (q : Question)
    (hq : q ∈ pool) (hid : q.id ∉ prev) :
    ∃ i, quizLoop pool prev (fun _ => i) 0 1 = some (.ok q) := by
  obtain ⟨i, hi⟩ := List.mem_iff_get?.1 hq
  obtain ⟨hlt, -⟩ := List.get?_eq_some.1 hi
  refine ⟨i, ?_⟩
  rw [quizLoop]
  rw [Nat.mod_eq_of_lt hlt, hi]
  dsimp only
  rw [if_neg hid]

/-- C1: whenever the eligible pool (all questions for category id 0,
else that category's questions) holds at least one question whose id is
not among `previous_questions`, a 200 response is reachable, and any 200
response carries a question drawn from the pool whose id is not among
`previous_questions`. -/
theorem play_quiz_returns_eligible (st : Store) (inp : QuizInput)
    (h : ∃ q ∈ eligible_pool st inp.quiz_category_id,
      q.id ∉ inp.previous_questions) :
    (∃ r fuel resp, play_quiz st inp r fuel = some (.ok resp)) ∧
    (∀ r fuel resp, play_quiz st inp r fuel = some (.ok resp) →
      ∃ q, q ∈ eligible_pool st inp.quiz_category_id ∧
        q.id ∉ inp.previous_questions ∧ resp.question = q.format) := by
  constructor
  · obtain ⟨q, hq, hid⟩ := h
    obtain ⟨i, hi⟩ := quizLoop_hits _ _ q hq hid
    exact ⟨fun _ => i, 1, ⟨true, q.format⟩, by unfold play_quiz; rw [hi]⟩
  · intro r fuel resp hres
    unfold play_quiz at hres
    cases hl : quizLoop (eligible_pool st inp.quiz_category_id)
        inp.previous_questions r 0 fuel with
    | none => rw [hl] at hres; simp at hres
    | some e =>
      rw [hl] at hres
      cases e with
      | error e' => simp [tryExcept] at hres
      | ok q =>
        simp only [Option.some.injEq, Except.ok.injEq] at hres
        obtain ⟨hmem, hid⟩ := quizLoop_ok_mem _ _ r fuel 0 q hl
        subst hres
        exact ⟨q, hmem, hid, rfl⟩

/-- Witness for C1: one unexcluded question in the pool; the quiz
endpoint can answer 200 and every 200 answer is that sort of
question. -/
theorem play_quiz_returns_eligible_witness :
    (∃ q ∈ eligible_pool ⟨[⟨1, "q1", "a1", 1, 1⟩], []⟩ 0,
      q.id ∉ ([] : List Nat)) ∧
    ((∃ r fuel resp,
        play_quiz ⟨[⟨1, "q1", "a1", 1, 1⟩], []⟩ ⟨[], 0⟩ r fuel = some (.ok resp)) ∧
     (∀ r fuel resp,
        play_quiz ⟨[⟨1, "q1", "a1", 1, 1⟩], []⟩ ⟨[], 0⟩ r fuel = some (.ok resp) →
        ∃ q, q ∈ eligible_pool ⟨[⟨1, "q1", "a1", 1, 1⟩], []⟩ 0 ∧
          q.id ∉ ([] : List Nat) ∧ resp.question = q.format)) :=
  ⟨by decide, play_quiz_returns_eligible ⟨[⟨1, "q1", "a1", 1, 1⟩], []⟩ ⟨[], 0⟩ (by decide)⟩

/-- With every pool id excluded (and the pool non-empty, so each draw
succeeds), each iteration picks an excluded question and loops again:
no amount of fuel makes the loop produce an outcome. -/
theorem quizLoop_exhausted_none (pool : List Question) (prev : List Nat)
    (r : Nat → Nat) (hne : pool ≠ [])
    (hall : ∀ q ∈ pool, q.id ∈ prev) :
    ∀ fuel k, quizLoop pool prev r k fuel = none := by
  intro fuel
  induction fuel with
  | zero => intro k; rfl
  | succ n ih =>
    intro k
    rw [quizLoop]
    have hlt : r k % pool.length < pool.length :=
      Nat.mod_lt _ (List.length_pos.2 hne)
    rw [List.get?_eq_get hlt]
    dsimp only
    rw [if_pos (hall _ (pool.get_mem _ _))]
    exact ih (k + 1)

/-- C2 (the claim documents the intended behaviour; the code diverges):
with a non-empty pool whose every question id is already in
`previous_questions`, the `while True` loop never breaks — the handler
produces no response at all, for any oracle and any number of
iterations, instead of terminating with a completion result. -/
theorem play_quiz_exhausted_never_answers (st : Store) (inp : QuizInput)
    (hne : eligible_pool st inp.quiz_category_id ≠ [])
    (hall : ∀ q ∈ eligible_pool st inp.quiz_category_id,
      q.id ∈ inp.previous_questions)
    (r : Nat → Nat) (fuel : Nat) :
    play_quiz st inp r fuel = none := by
  unfold play_quiz
  rw [quizLoop_exhausted_none _ _ r hne hall fuel 0]

/-- Witness for C2: the single pool question is already excluded; five
units of fuel (or any other amount) produce no outcome. -/
theorem play_quiz_exhausted_never_answers_witness :
    eligible_pool ⟨[⟨1, "q1", "a1", 1, 1⟩], []⟩ 0 ≠ [] ∧
    (∀ q ∈ eligible_pool ⟨[⟨1, "q1", "a1", 1, 1⟩], []⟩ 0, q.id ∈ [1]) ∧
    play_quiz ⟨[⟨1, "q1", "a1", 1, 1⟩], []⟩ ⟨[1], 0⟩ (fun _ => 0) 5 = none :=
  ⟨by decide, by decide,
   play_quiz_exhausted_never_answers ⟨[⟨1, "q1", "a1", 1, 1⟩], []⟩ ⟨[1], 0⟩
     (by decide) (by decide) (fun _ => 0) 5⟩

/-- A successful pagination hands back at most `perPage` items and the
full row count. -/
theorem paginate_ok (qs : List Question) (page : Int) (perPage : Nat)
    (pg : List Question × Nat) (h : paginate qs page perPage = .ok pg) :
    pg.1.length ≤ perPage ∧ pg.2 = qs.length := by
  unfold paginate at h
  split at h
  · simp at h
  · dsimp only at h
    split at h
    · simp at h
    · simp only [Except.ok.injEq] at h
      subst h
      exact ⟨List.length_take_le _ _, rfl⟩

/-- C6: every 200 answer of `GET /questions?page=N` — which is what a
valid in-range page yields — lists at most `QUESTIONS_PER_PAGE = 10`
questions and reports `total_questions` equal to the row count of the
questions table. -/
theorem get_questions_page_bounds (st : Store) (page : Int) (resp : QuestionsResp)
    (h : get_questions st page = .ok resp) :
    resp.questions.length ≤ 10 ∧ resp.total_questions = st.questions.length := by
  unfold get_questions at h
  rw [tryExcept_ok] at h
  cases hp : paginate st.questions page QUESTIONS_PER_PAGE with
  | error e => rw [hp] at h; simp at h
  | ok pg =>
    rw [hp] at h
    dsimp only at h
    split at h
    · simp at h
    · simp only [Except.ok.injEq] at h
      subst h
      obtain ⟨hlen, htot⟩ := paginate_ok st.questions page QUESTIONS_PER_PAGE pg hp
      exact ⟨by simpa using hlen, htot⟩

/-- Witness for C6: one row, page 1 — the response is 200 with one
question and `total_questions = 1`. -/
theorem get_questions_page_bounds_witness :
    get_questions ⟨[⟨1, "q1", "a1", 1, 1⟩], [⟨1, "Science"⟩]⟩ 1 =
      .ok ⟨true, 1, [⟨1, "q1", "a1", 1, 1⟩], [(1, "Science")], none⟩ ∧
    (([⟨1, "q1", "a1", 1, 1⟩] : List FormattedQuestion).length ≤ 10 ∧
      (1 : Nat) = ([⟨1, "q1", "a1", 1, 1⟩] : List Question).length) :=
  ⟨by decide,
   get_questions_page_bounds ⟨[⟨1, "q1", "a1", 1, 1⟩], [⟨1, "Science"⟩]⟩ 1
     ⟨true, 1, [⟨1, "q1", "a1", 1, 1⟩], [(1, "Science")], none⟩ (by decide)⟩

/-- C8: every 200 answer of `GET /categories/{id}/questions` lists
exactly the questions whose `category` equals the requested id, each
listed question carries that category, `total_questions` is their
count, and `current_category` echoes the id. -/
theorem questions_by_category_exact (st : Store) (id : Nat)
    (resp : CategoryQuestionsResp)
    (h : get_questions_by_category st id = .ok resp) :
    resp.questions =
      (st.questions.filter (fun q => q.category == id)).map Question.format ∧
    (∀ fq ∈ resp.questions, fq.category = id) ∧
    resp.total_questions = (st.questions.filter (fun q => q.category == id)).length ∧
    resp.current_category = some id := by
  unfold get_questions_by_category at h
  rw [tryExcept_ok] at h
  dsimp only at h
  split at h
  · simp at h
  · simp only [Except.ok.injEq] at h
    subst h
    refine ⟨rfl, ?_, rfl, rfl⟩
    intro fq hfq
    obtain ⟨q, hq, hfmt⟩ := List.mem_map.1 hfq
    have hcat : (q.category == id) = true := (List.mem_filter.1 hq).2
    rw [← hfmt]
    show q.category = id
    simpa using hcat

/-- Witness for C8: two questions in category 1, one in category 2;
asking for category 1 returns exactly the two, correctly counted and
echoed. -/
theorem questions_by_category_exact_witness :
    get_questions_by_category
      ⟨[⟨1, "q1", "a1", 1, 1⟩, ⟨2, "q2", "a2", 2, 2⟩, ⟨3, "q3", "a3", 3, 1⟩], []⟩ 1 =
      .ok ⟨true, 2, [⟨1, "q1", "a1", 1, 1⟩, ⟨3, "q3", "a3", 3, 1⟩], some 1⟩ ∧
    ([⟨1, "q1", "a1", 1, 1⟩, ⟨3, "q3", "a3", 3, 1⟩] : List FormattedQuestion) =
      ((⟨[⟨1, "q1", "a1", 1, 1⟩, ⟨2, "q2", "a2", 2, 2⟩, ⟨3, "q3", "a3", 3, 1⟩], []⟩ :
          Store).questions.filter (fun q => q.category == 1)).map Question.format ∧
    (∀ fq ∈ ([⟨1, "q1", "a1", 1, 1⟩, ⟨3, "q3", "a3", 3, 1⟩] : List FormattedQuestion),
      fq.category = 1) :=
  ⟨by decide,
   ((questions_by_category_exact
      ⟨[⟨1, "q1", "a1", 1, 1⟩, ⟨2, "q2", "a2", 2, 2⟩, ⟨3, "q3", "a3", 3, 1⟩], []⟩ 1
      ⟨true, 2, [⟨1, "q1", "a1", 1, 1⟩, ⟨3, "q3", "a3", 3, 1⟩], some 1⟩ (by decide)).1),
   ((questions_by_category_exact
      ⟨[⟨1, "q1", "a1", 1, 1⟩, ⟨2, "q2", "a2", 2, 2⟩, ⟨3, "q3", "a3", 3, 1⟩], []⟩ 1
      ⟨true, 2, [⟨1, "q1", "a1", 1, 1⟩, ⟨3, "q3", "a3", 3, 1⟩], some 1⟩ (by decide)).2.1)⟩

/-- Counterexample to C4 as stated: question, answer and category
present and truthy, difficulty 0 — the claim predicts an HTTP 400
response, but the `abort(400)` raised inside `try` is itself an
`Exception`, the generic `except` catches it and re-raises `abort(422)`,
so the client sees 422, not 400. -/
theorem add_question_falsy_not_400 :
    httpStatus (add_question ⟨[], []⟩ ⟨some "q", some "a", some 0, some 1⟩).2 = 422 ∧
    httpStatus (add_question ⟨[], []⟩ ⟨some "q", some "a", some 0, some 1⟩).2 ≠ 400 := by
  decide

/-- C4 amended: for any request with a falsy or missing field (question
or answer absent or empty, difficulty absent or 0, category absent or
0), no row is inserted and the response is HTTP 422 — not 400: a
missing difficulty raises `TypeError` inside `int()`, every other falsy
field reaches `abort(400)`, and in both cases the generic `except`
converts the exception to 422. -/
theorem add_question_falsy_rejected (st : Store) (inp : AddInput)
    (h : inp.question = none ∨ inp.question = some "" ∨
         inp.answer = none ∨ inp.answer = some "" ∨
         inp.difficulty = none ∨ inp.difficulty = some 0 ∨
         inp.category = none ∨ inp.category = some 0) :
    (add_question st inp).1 = st ∧ httpStatus (add_question st inp).2 = 422 := by
  have hqn : truthyOptStr none = false := by decide
  have hqe : truthyOptStr (some "") = false := by decide
  have hcn : truthyOptNat none = false := by decide
  have hce : truthyOptNat (some 0) = false := by decide
  have hbody : ∃ e, add_question_body st inp = .error e := by
    rcases h with h | h | h | h | h | h | h | h
    · cases hd : inp.difficulty with
      | none => exact ⟨.typeError, by unfold add_question_body; rw [hd]; rfl⟩
      | some d =>
        exact ⟨.httpExc 400, by unfold add_question_body; rw [hd, h]; simp [pyInt, hqn]⟩
    · cases hd : inp.difficulty with
      | none => exact ⟨.typeError, by unfold add_question_body; rw [hd]; rfl⟩
      | some d =>
        exact ⟨.httpExc 400, by unfold add_question_body; rw [hd, h]; simp [pyInt, hqe]⟩
    · cases hd : inp.difficulty with
      | none => exact ⟨.typeError, by unfold add_question_body; rw [hd]; rfl⟩
      | some d =>
        exact ⟨.httpExc 400, by unfold add_question_body; rw [hd, h]; simp [pyInt, hqn]⟩
    · cases hd : inp.difficulty with
      | none => exact ⟨.typeError, by unfold add_question_body; rw [hd]; rfl⟩
      | some d =>
        exact ⟨.httpExc 400, by unfold add_question_body; rw [hd, h]; simp [pyInt, hqe]⟩
    · exact ⟨.typeError, by unfold add_question_body; rw [h]; rfl⟩
    · exact ⟨.httpExc 400, by unfold add_question_body; rw [h]; simp [pyInt]⟩
    · cases hd : inp.difficulty with
      | none => exact ⟨.typeError, by unfold add_question_body; rw [hd]; rfl⟩
      | some d =>
        exact ⟨.httpExc 400, by unfold add_question_body; rw [hd, h]; simp [pyInt, hcn]⟩
    · cases hd : inp.difficulty with
      | none => exact ⟨.typeError, by unfold add_question_body; rw [hd]; rfl⟩
      | some d =>
        exact ⟨.httpExc 400, by unfold add_question_body; rw [hd, h]; simp [pyInt, hce]⟩
  obtain ⟨e, he⟩ := hbody
  unfold add_question
  rw [he]
  exact ⟨rfl, rfl⟩

/-- Witness for C4 amended: answer missing — the store is unchanged
and the client sees 422. -/
theorem add_question_falsy_rejected_witness :
    ((⟨some "q", none, some 2, some 1⟩ : AddInput).question = none ∨
     (⟨some "q", none, some 2, some 1⟩ : AddInput).question = some "" ∨
     (⟨some "q", none, some 2, some 1⟩ : AddInput).answer = none ∨
     (⟨some "q", none, some 2, some 1⟩ : AddInput).answer = some "" ∨
     (⟨some "q", none, some 2, some 1⟩ : AddInput).difficulty = none ∨
     (⟨some "q", none, some 2, some 1⟩ : AddInput).difficulty = some 0 ∨
     (⟨some "q", none, some 2, some 1⟩ : AddInput).category = none ∨
     (⟨some "q", none, some 2, some 1⟩ : AddInput).category = some 0) ∧
    ((add_question ⟨[], []⟩ ⟨some "q", none, some 2, some 1⟩).1 = ⟨[], []⟩ ∧
     httpStatus (add_question ⟨[], []⟩ ⟨some "q", none, some 2, some 1⟩).2 = 422) :=
  ⟨by decide,
   add_question_falsy_rejected ⟨[], []⟩ ⟨some "q", none, some 2, some 1⟩ (by decide)⟩

/-- Every element is bounded by the fold that computes the maximum. -/
theorem le_foldr_max (n : Nat) (l : List Nat) (h : n ∈ l) : n ≤ l.foldr max 0 := by
  induction l with
  | nil => cases h
  | cons m l ih =>
    rcases List.mem_cons.1 h with rfl | h'
    · exact Nat.le_max_left _ _
    · exact Nat.le_trans (ih h') (Nat.le_max_right _ _)

/-- The server-generated id is fresh: strictly above every stored id. -/
theorem id_lt_freshId (st : Store) (q : Question) (h : q ∈ st.questions) :
    q.id < freshId st := by
  have := le_foldr_max q.id (st.questions.map Question.id)
    (List.mem_map_of_mem Question.id h)
  unfold freshId
  omega

/-- Inversion of a successful insert: the new row is appended with the
fresh id, and the response reports exactly that id. -/
theorem add_question_ok_inv (st st' : Store) (inp : AddInput) (r : AddResp)
    (h : add_question st inp = (st', .ok r)) :
    ∃ d, st' = ⟨st.questions ++
        [⟨freshId st, (inp.question).getD "", (inp.answer).getD "", d,
          (inp.category).getD 0⟩], st.categories⟩ ∧
      r = ⟨true, freshId st⟩ := by
  unfold add_question at h
  cases hb : add_question_body st inp with
  | error e => rw [hb] at h; simp [tryExcept] at h
  | ok v =>
    obtain ⟨st'', r''⟩ := v
    rw [hb] at h
    simp only [tryExcept, Prod.mk.injEq, Except.ok.injEq] at h
    obtain ⟨h1, h2⟩ := h
    unfold add_question_body at hb
    cases hd : inp.difficulty with
    | none => rw [hd] at hb; simp [pyInt] at hb
    | some d =>
      rw [hd] at hb
      simp only [pyInt] at hb
      split at hb
      · simp at hb
      · simp only [Except.ok.injEq, Prod.mk.injEq] at hb
        obtain ⟨hst, hr⟩ := hb
        exact ⟨d, by rw [← h1, ← hst], by rw [← h2, ← hr]⟩

/-- Counterexample to C5 as stated: deleting id 1 from an empty store.
The claim predicts HTTP 404, but the `abort(404)` raised inside `try`
is caught by the generic `except` and re-raised as `abort(422)`: the
client sees 422. -/
theorem delete_question_absent_not_404 :
    httpStatus (delete_question ⟨[], []⟩ 1).2 = 422 ∧
    httpStatus (delete_question ⟨[], []⟩ 1).2 ≠ 404 := by
  decide

/-- C5 amended: deleting an absent id leaves the store unchanged and
answers 422 (not 404 — the `abort(404)` is caught by the generic
`except` and converted); deleting a present id removes that row
permanently and the 200 response carries the requested id; and creating
a question then deleting it by the returned id succeeds with 200, after
which a fetch of that id finds no row. -/
theorem delete_question_amended
    (st1 : Store) (idA : Nat)
    (h1 : st1.questions.find? (fun q => q.id == idA) = none)
    (st2 : Store) (idB : Nat) (qB : Question)
    (h2 : st2.questions.find? (fun q => q.id == idB) = some qB)
    (st3 st3' : Store) (inp : AddInput) (r : AddResp)
    (h3 : add_question st3 inp = (st3', .ok r)) :
    ((delete_question st1 idA).1 = st1 ∧
      httpStatus (delete_question st1 idA).2 = 422) ∧
    ((delete_question st2 idB).2 = .ok ⟨true, idB⟩ ∧
      (delete_question st2 idB).1.questions.length + 1 = st2.questions.length) ∧
    (httpStatus (delete_question st3' r.id).2 = 200 ∧
      (delete_question st3' r.id).1.questions.find? (fun q => q.id == r.id) = none) := by
  refine ⟨?_, ?_, ?_⟩
  · unfold delete_question delete_question_body
    rw [h1]
    exact ⟨rfl, rfl⟩
  · have hpB := List.find?_some h2
    have hmemB : qB ∈ st2.questions := List.mem_of_find?_eq_some h2
    have hidB : qB.id = idB := by simpa using hpB
    constructor
    · unfold delete_question delete_question_body
      rw [h2]
      dsimp only [tryExcept]
      rw [hidB]
    · unfold delete_question delete_question_body
      rw [h2]
      dsimp only [tryExcept]
      have hlen : (st2.questions.eraseP (fun q' => q'.id == idB)).length =
          st2.questions.length - 1 := List.length_eraseP_of_mem hmemB hpB
      have hpos := List.length_pos_of_mem hmemB
      omega
  · obtain ⟨d, hst', hr⟩ := add_question_ok_inv st3 st3' inp r h3
    subst hst'
    subst hr
    have hnotP : ∀ b ∈ st3.questions, ¬(b.id == freshId st3) = true := by
      intro b hb
      simp only [beq_iff_eq]
      exact Nat.ne_of_lt (id_lt_freshId st3 b hb)
    have hfind : (st3.questions ++
        [(⟨freshId st3, (inp.question).getD "", (inp.answer).getD "", d,
          (inp.category).getD 0⟩ : Question)]).find?
          (fun q => q.id == freshId st3) =
        some ⟨freshId st3, (inp.question).getD "", (inp.answer).getD "", d,
          (inp.category).getD 0⟩ := by
      rw [List.find?_append]
      have hnone : st3.questions.find? (fun q => q.id == freshId st3) = none :=
        List.find?_eq_none.2 hnotP
      rw [hnone]
      simp
    have herase : (st3.questions ++
        [(⟨freshId st3, (inp.question).getD "", (inp.answer).getD "", d,
          (inp.category).getD 0⟩ : Question)]).eraseP
          (fun q => q.id == freshId st3) = st3.questions := by
      rw [List.eraseP_append_right _ hnotP]
      simp
    constructor
    · unfold delete_question delete_question_body
      dsimp only
      rw [hfind]
      rfl
    · unfold delete_question delete_question_body
      dsimp only
      rw [hfind]
      dsimp only [tryExcept]
      rw [herase]
      exact List.find?_eq_none.2 hnotP

/-- Witness for C5 amended: an empty store rejects deleting id 1 with
422; a one-row store deletes id 2 and reports it; inserting into the
empty store yields id 1, deleting id 1 then succeeds and the row is
gone. -/
theorem delete_question_amended_witness :
    ((⟨[], []⟩ : Store).questions.find? (fun q => q.id == 1) = none ∧
     (⟨[⟨2, "q", "a", 1, 1⟩], []⟩ : Store).questions.find? (fun q => q.id == 2) =
       some ⟨2, "q", "a", 1, 1⟩ ∧
     add_question ⟨[], []⟩ ⟨some "q", some "a", some 3, some 1⟩ =
       (⟨[⟨1, "q", "a", 3, 1⟩], []⟩, .ok ⟨true, 1⟩)) ∧
    (((delete_question ⟨[], []⟩ 1).1 = ⟨[], []⟩ ∧
      httpStatus (delete_question ⟨[], []⟩ 1).2 = 422) ∧
     ((delete_question ⟨[⟨2, "q", "a", 1, 1⟩], []⟩ 2).2 = .ok ⟨true, 2⟩ ∧
      (delete_question ⟨[⟨2, "q", "a", 1, 1⟩], []⟩ 2).1.questions.length + 1 =
        (⟨[⟨2, "q", "a", 1, 1⟩], []⟩ : Store).questions.length) ∧
     (httpStatus (delete_question ⟨[⟨1, "q", "a", 3, 1⟩], []⟩
        (AddResp.mk true 1).id).2 = 200 ∧
      (delete_question ⟨[⟨1, "q", "a", 3, 1⟩], []⟩
        (AddResp.mk true 1).id).1.questions.find?
          (fun q => q.id == (AddResp.mk true 1).id) = none)) :=
  ⟨⟨by decide, by decide, by decide⟩,
   delete_question_amended ⟨[], []⟩ 1 (by decide)
     ⟨[⟨2, "q", "a", 1, 1⟩], []⟩ 2 ⟨2, "q", "a", 1, 1⟩ (by decide)
     ⟨[], []⟩ ⟨[⟨1, "q", "a", 3, 1⟩], []⟩ ⟨some "q", some "a", some 3, some 1⟩
     ⟨true, 1⟩ (by decide)⟩

/-- Unfolding equation of `likeMatch` on a cons pattern. -/
theorem likeMatch_cons (c : Char) (p : List Char) (s : List Char) :
    likeMatch (c :: p) s =
      if c = '%' then (s.tails).any (fun s' => likeMatch p s')
      else if c = '_' then
        match s with
        | [] => false
        | _ :: s' => likeMatch p s'
      else
        match s with
        | [] => false
        | d :: s' => (lowerChar c = lowerChar d) && likeMatch p s' := rfl

/-- A bare `%` pattern matches every string. -/
theorem likeMatch_pct_nil (s : List Char) : likeMatch ['%'] s = true := by
  rw [likeMatch_cons, if_pos rfl, List.any_eq_true]
  exact ⟨[], (List.mem_tails [] s).2 List.nil_suffix, rfl⟩

/-- On a wildcard-free pattern, literal matching followed by a trailing
`%` is exactly the case-insensitive starts-with test. -/
theorem likeMatch_lit_eq :
    ∀ t : List Char, hasWild t = false →
      ∀ s, likeMatch (t ++ ['%']) s = startsWithCI t s := by
  intro t
  induction t with
  | nil =>
    intro _ s
    rw [List.nil_append, likeMatch_pct_nil]
    rfl
  | cons c t ih =>
    intro hw s
    have hw' : ((decide (c = '%') || decide (c = '_')) || hasWild t) = false := hw
    obtain ⟨hcc, hw2⟩ := Bool.or_eq_false_iff.1 hw'
    obtain ⟨h1, h2⟩ := Bool.or_eq_false_iff.1 hcc
    have hc1 : ¬(c = '%') := of_decide_eq_false h1
    have hc2 : ¬(c = '_') := of_decide_eq_false h2
    rw [List.cons_append, likeMatch_cons, if_neg hc1, if_neg hc2]
    cases s with
    | nil => rfl
    | cons d s' =>
      dsimp only
      rw [ih hw2 s']
      rfl

/-- Pointwise-equal predicates give equal `any`. -/
theorem any_eq_of_forall {α : Type} (l : List α) (f g : α → Bool)
    (h : ∀ x ∈ l, f x = g x) : l.any f = l.any g := by
  induction l with
  | nil => rfl
  | cons a l ih =>
    have ha := h a (List.mem_cons_self a l)
    have ih' := ih (fun x hx => h x (List.mem_cons_of_mem a hx))
    simp [List.any_cons, ha, ih']

/-- A `%…%`-wrapped wildcard-free term matches under `ilike` exactly
when the term occurs in the string as a case-insensitive substring. -/
theorem ilike_pct_eq_containsCI (t : String) (hw : hasWild t.data = false)
    (s : String) : ilike s ("%" ++ t ++ "%") = containsCI s t := by
  unfold ilike containsCI
  have hdata : ("%" ++ t ++ "%").data = '%' :: (t.data ++ ['%']) := by
    rw [String.data_append, String.data_append]
    rfl
  rw [hdata, likeMatch_cons, if_pos rfl]
  exact any_eq_of_forall _ _ _ (fun x _ => likeMatch_lit_eq t.data hw x)

/-- The search handler on a wildcard-free term answers 200 with exactly
the case-insensitive substring matches of the questions table. -/
theorem search_ok_of_nowild (st : Store) (t : String)
    (hw : hasWild t.data = false) :
    search_questions st (some t) =
      .ok ⟨true,
        (st.questions.filter (fun q => containsCI q.question t)).map Question.format,
        (st.questions.filter (fun q => containsCI q.question t)).length,
        none⟩ := by
  unfold search_questions
  rw [tryExcept_ok]
  dsimp only [pyFStr]
  have hfilter : st.questions.filter
      (fun q => ilike q.question ("%" ++ t ++ "%")) =
      st.questions.filter (fun q => containsCI q.question t) :=
    List.filter_congr (fun q _ => ilike_pct_eq_containsCI t hw q.question)
  rw [hfilter, List.length_map]

/-- Counterexample to C7 as stated: the search term `"%"` is a SQL
wildcard; the code interpolates it into the `ilike` pattern `%%%`,
which matches the question "abc" even though "abc" does not contain
the character `%` as a substring.  The 200 response therefore lists a
question outside the claimed exactly-the-substring-matches set. -/
theorem search_wildcard_term_not_substring :
    search_questions ⟨[⟨1, "abc", "x", 1, 1⟩], []⟩ (some "%") =
      .ok ⟨true, [⟨1, "abc", "x", 1, 1⟩], 1, none⟩ ∧
    (⟨[⟨1, "abc", "x", 1, 1⟩], []⟩ : Store).questions.filter
      (fun q => containsCI q.question "%") = [] :=
  ⟨by decide, by decide⟩

/-- C7 amended: for every search term containing no SQL wildcard
character (`%` or `_`), the 200 response holds exactly the questions
whose text contains the term as a case-insensitive substring, with
`total_questions` the length of that list and a null current category;
an empty result is still a 200 response.  (For terms with wildcards the
`ilike` pattern semantics applies instead.) -/
theorem search_questions_substring_exact (st : Store) (t : String)
    (hw : hasWild t.data = false) :
    search_questions st (some t) =
      .ok ⟨true,
        (st.questions.filter (fun q => containsCI q.question t)).map Question.format,
        (st.questions.filter (fun q => containsCI q.question t)).length,
        none⟩ ∧
    httpStatus (search_questions st (some t)) = 200 := by
  have h := search_ok_of_nowild st t hw
  exact ⟨h, by rw [h]; rfl⟩

/-- Witness for C7 amended: searching "title" finds the question whose
text contains "TITLE" and not the other one. -/
theorem search_questions_substring_exact_witness :
    hasWild ("title".data) = false ∧
    (search_questions
        ⟨[⟨1, "What is the TITLE", "a", 1, 1⟩, ⟨2, "other", "b", 1, 1⟩], []⟩
        (some "title") =
      .ok ⟨true,
        ((⟨[⟨1, "What is the TITLE", "a", 1, 1⟩, ⟨2, "other", "b", 1, 1⟩], []⟩ :
            Store).questions.filter
          (fun q => containsCI q.question "title")).map Question.format,
        ((⟨[⟨1, "What is the TITLE", "a", 1, 1⟩, ⟨2, "other", "b", 1, 1⟩], []⟩ :
            Store).questions.filter
          (fun q => containsCI q.question "title")).length,
        none⟩ ∧
     httpStatus (search_questions
        ⟨[⟨1, "What is the TITLE", "a", 1, 1⟩, ⟨2, "other", "b", 1, 1⟩], []⟩
        (some "title")) = 200) :=
  ⟨by decide,
   search_questions_substring_exact
     ⟨[⟨1, "What is the TITLE", "a", 1, 1⟩, ⟨2, "other", "b", 1, 1⟩], []⟩
     "title" (by decide)⟩

/-- C10: a search request whose body lacks `searchTerm` is not
rejected: `data.get` yields `None`, the f-string interpolates the
literal text "None" into the pattern, and the 200 response holds
exactly the questions whose text contains "None" case-insensitively. -/
theorem search_missing_term_matches_None (st : Store) :
    search_questions st none =
      .ok ⟨true,
        (st.questions.filter (fun q => containsCI q.question "None")).map
          Question.format,
        (st.questions.filter (fun q => containsCI q.question "None")).length,
        none⟩ ∧
    httpStatus (search_questions st none) = 200 := by
  have hnone : search_questions st none = search_questions st (some "None") := rfl
  have h := search_ok_of_nowild st "None" (by decide)
  constructor
  · rw [hnone]
    exact h
  · rw [hnone, h]
    rfl

end Trivia
